import Mathlib

/-!
# Verification of the urbackup-gui status rendering logic

Shallow embedding of the pure logic of `src/urbackupgui/app.py` and
`src/urbackup-gui.py`:

* `StatusInfo.update_status` (the window presenter) becomes `update_status`,
  an explicit state-passing function on the widget texts: Python dict key
  errors become `Except.error (PyErr.keyError _)`.
* `App.update_tray` (the icon presenter) becomes `update_tray`.
* `App.get_status` (the poller) becomes `get_status`, parameterised by the
  subprocess runner and the JSON parser, which are external collaborators.
* The secondary entry point `src/urbackup-gui.py` contributes
  `gui_entry_cmd`, its platform-dependent tool-name selection.

Python `//` is floor division, embedded as `Int.fdiv`.  The timestamp
formatter `datetime.fromtimestamp(..).strftime("%m/%d/%Y %I:%M:%S %p")` is a
library call depending on the local timezone, so it is a parameter
`fmt_time : Int → String` of the render function.
-/

/-- Python exceptions that the embedded code can raise. -/
inductive PyErr where
  | keyError (key : String)
  | jsonDecodeError (msg : String)
deriving DecidableEq, Repr

/-- One entry of `running_processes` in the status JSON.  `action` is an
arbitrary string (the code indexes a fixed dict with it); `eta_ms` is
optional because the code reads the key without checking membership. -/
structure RunningProcess where
  action : String
  eta_ms : Option Int
  percent_done : Int
deriving DecidableEq, Repr

/-- One entry of `servers` in the status JSON. -/
structure Server where
  name : String
  internet_connection : Bool
deriving DecidableEq, Repr

/-- The decoded status JSON object (§3 schema): `last_backup_time` is
optional (the code tests `"last_backup_time" in status`); the remaining
fields are read unconditionally and modelled as required. -/
structure Status where
  running_processes : List RunningProcess
  last_backup_time : Option Int
  servers : List Server
  internet_status : String
  time_since_last_lan_connection : Int
deriving DecidableEq, Repr

/-- The texts/values held by the `StatusInfo` widgets: status label, ETA
label, progress bar value, last-backup label, server list, connection
label. -/
structure Rendered where
  status_text : String
  eta_text : String
  progress_value : Int
  last_backup : String
  servers : List String
  connect_status : String
deriving DecidableEq, Repr

/-- `StatusInfo.statuses`: the fixed action → text dict (app.py lines 51-55). -/
def statuses : List (String × String) :=
  [("FULL", "Full file backup running."),
   ("INCR", "Incremental file backup running."),
   ("IDLE", "Idle.")]

/-- `Template("$status $progress")` (app.py line 56). -/
def status_format (status progress : String) : String :=
  status ++ " " ++ progress

/-- `Template("ETA: $time")` (app.py line 57). -/
def eta_format (time : String) : String :=
  "ETA: " ++ time

/-- `Template("Last backup on $date")` (app.py line 58). -/
def last_backup_format (date : String) : String :=
  "Last backup on " ++ date

/-- `Template("${status}onnected to local UrBackup server.")` (app.py line 59). -/
def connect_to_local_format (status : String) : String :=
  status ++ "onnected to local UrBackup server."

/-- `Template("Local server last seen $minutes minutes ago.")` (app.py line 60). -/
def last_seen_format (minutes : String) : String :=
  "Local server last seen " ++ minutes ++ " minutes ago."

/-- app.py lines 132-145: the `curr_status`/`eta`/`percent`/`progress`
locals computed from `running_processes`.  Reading `eta_ms` on the first
process raises `KeyError` when the key is absent. -/
def current_info (ps : List RunningProcess) :
    Except PyErr (String × Option Int × Int × String) :=
  match ps with
  | [] => Except.ok ("IDLE", none, 0, "")
  | p :: _ =>
      match p.eta_ms with
      | none => Except.error (PyErr.keyError "eta_ms")
      | some e =>
          if p.percent_done = -1 then
            Except.ok (p.action, some e, 0, "Indexing.")
          else
            Except.ok (p.action, some e, p.percent_done,
              toString p.percent_done ++ "% done.")

/-- `self.statuses[curr_status]` (app.py line 148): dict indexing, raising
`KeyError` on an unknown action. -/
def lookup_status (key : String) : Except PyErr String :=
  match statuses.lookup key with
  | some v => Except.ok v
  | none => Except.error (PyErr.keyError key)

/-- app.py lines 151-155: the ETA label text. -/
def eta_text_of (eta : Option Int) : String :=
  match eta with
  | some e =>
      if e ≠ -1 then
        eta_format (toString (Int.fdiv e 3600000) ++ " hours " ++
          toString (Int.fdiv e 60000) ++ " minutes")
      else ""
  | none => ""

/-- app.py lines 159-167: the last-backup label is overwritten only when the
`last_backup_time` key is present; otherwise `setText` is never called and
the label keeps its previous text. -/
def last_backup_text (fmt_time : Int → String) (prev_text : String)
    (t : Option Int) : String :=
  match t with
  | some ts => last_backup_format (fmt_time ts)
  | none => prev_text

/-- app.py lines 168-172: the server list is cleared and repopulated. -/
def server_lines (servers : List Server) : List String :=
  servers.map fun s =>
    s.name ++ " (Internet: " ++ (if s.internet_connection then "Yes" else "No") ++ ")"

/-- app.py lines 173-181: the connection-status label.  (`last_seen` is
computed before the branch in the source, but it is pure, so computing it in
the final branch is observationally identical.) -/
def connect_text (internet_status : String) (tslan : Int) : String :=
  if internet_status = "wait_local" then
    "Waiting for local UrBackup server."
  else if internet_status = "no_server" then
    "No servers"
  else
    connect_to_local_format
        (if internet_status = "connected_local" then "C" else "Not c") ++
      "\n" ++ last_seen_format (toString (Int.fdiv tslan 60000))

/-- app.py lines 122-129: the widget state written when the status is `None`. -/
def unknown_rendered : Rendered :=
  { status_text := "Could not get status!"
  , eta_text := ""
  , progress_value := 0
  , last_backup := ""
  , servers := []
  , connect_status := "Unknown" }

/-- `StatusInfo.update_status` (app.py lines 120-181), as a function from
the previous widget state and the optional status to the new widget state,
or a raised exception. -/
def update_status (fmt_time : Int → String) (prev : Rendered)
    (status : Option Status) : Except PyErr Rendered :=
  match status with
  | none => Except.ok unknown_rendered
  | some st =>
      match current_info st.running_processes with
      | Except.error e => Except.error e
      | Except.ok (curr_status, eta, percent, progress) =>
          match lookup_status curr_status with
          | Except.error e => Except.error e
          | Except.ok status_name =>
              Except.ok
                { status_text := status_format status_name progress
                , eta_text := eta_text_of eta
                , progress_value := percent
                , last_backup :=
                    last_backup_text fmt_time prev.last_backup st.last_backup_time
                , servers := server_lines st.servers
                , connect_status :=
                    connect_text st.internet_status st.time_since_last_lan_connection }

/-- The three icons loaded in `App.__init__` (app.py lines 195-199). -/
inductive Icon where
  | not_connected
  | connected
  | busy
deriving DecidableEq, Repr

/-- `App.update_tray` (app.py lines 301-317): the pair is
(tray icon, window icon). -/
def update_tray (status : Option Status) : Icon × Icon :=
  match status with
  | none => (Icon.not_connected, Icon.not_connected)
  | some st =>
      if st.running_processes.length > 0 then
        (Icon.busy, Icon.busy)
      else if st.internet_status = "connected_local" then
        (Icon.connected, Icon.connected)
      else
        (Icon.not_connected, Icon.not_connected)

/-- The result of `subprocess.run(..., capture_output=True)`. -/
structure ProcResult where
  returncode : Int
  stdout : String
deriving DecidableEq, Repr

/-- The argument vector of the one subprocess invocation,
`["urbackupclientctl", "status"]` (app.py line 321): it is a constant, not a
function of the platform. -/
def get_status_argv : List String :=
  ["urbackupclientctl", "status"]

/-- app.py lines 322-325: the return-code check and the JSON decode of
stdout. -/
def get_status_from (result : ProcResult)
    (parse : String → Except PyErr Status) : Except PyErr (Option Status) :=
  if result.returncode ≠ 0 then Except.ok none
  else (parse result.stdout).map some

/-- `App.get_status` (app.py lines 319-325), parameterised by the subprocess
runner and the JSON parser. -/
def get_status (run : List String → ProcResult)
    (parse : String → Except PyErr Status) : Except PyErr (Option Status) :=
  get_status_from (run get_status_argv) parse

/-- Python `str.startswith`, as a prefix test on the character lists. -/
def startswith (s pre : String) : Bool :=
  List.isPrefixOf pre.data s.data

/-- src/urbackup-gui.py lines 9-12: the platform-dependent tool name the
secondary entry point selects (and prints, without ever invoking it). -/
def gui_entry_cmd (platform : String) : String :=
  if startswith platform "win32" then "UrBackupClient_cmd"
  else "urbackupclientctl"

/-- Spec-side definition (§4.3): the icon as a pure function of
`(is_none, has_running_process, internet_status)`, evaluated in order. -/
def icon_choice (is_none has_running : Bool) (internet_status : String) : Icon :=
  if is_none then Icon.not_connected
  else if has_running then Icon.busy
  else if internet_status = "connected_local" then Icon.connected
  else Icon.not_connected

/-- Observation: does the optional status have a running process? -/
def has_running_process (status : Option Status) : Bool :=
  match status with
  | none => false
  | some st => decide (st.running_processes.length > 0)

/-- Observation: the `internet_status` field, or `""` for `None`. -/
def internet_status_of (status : Option Status) : String :=
  match status with
  | none => ""
  | some st => st.internet_status

/-- Is the outcome a raised `KeyError`? -/
def is_key_error : Except PyErr Rendered → Bool
  | Except.error (PyErr.keyError _) => true
  | _ => false

/-! ## Concrete states used to instantiate the theorems -/

/-- The widget texts set by `StatusInfo.__init__` (app.py lines 69-118):
initial status label "Idle. ", empty ETA and last-backup labels, empty
server list, "Not connected" connection label. -/
def rendered0 : Rendered :=
  { status_text := "Idle. "
  , eta_text := ""
  , progress_value := 0
  , last_backup := ""
  , servers := []
  , connect_status := "Not connected to local UrBackup server." }

/-- A snapshot with one running full backup: 50% done, ETA 7,260,000 ms. -/
def eta_example_status : Status :=
  { running_processes := [{ action := "FULL", eta_ms := some 7260000, percent_done := 50 }]
  , last_backup_time := none
  , servers := []
  , internet_status := "connected_local"
  , time_since_last_lan_connection := 120000 }

/-- What `update_status` renders for `eta_example_status`. -/
def eta_example_rendered : Rendered :=
  { status_text := "Full file backup running. 50% done."
  , eta_text := "ETA: 2 hours 121 minutes"
  , progress_value := 50
  , last_backup := ""
  , servers := []
  , connect_status := "Connected to local UrBackup server.\nLocal server last seen 2 minutes ago." }

/-- A snapshot whose first running process lacks the `eta_ms` key. -/
def eta_missing_status : Status :=
  { running_processes := [{ action := "IDLE", eta_ms := none, percent_done := 0 }]
  , last_backup_time := none
  , servers := []
  , internet_status := "connected_local"
  , time_since_last_lan_connection := 0 }

/-- An idle snapshot without the `last_backup_time` key. -/
def idle_status : Status :=
  { running_processes := []
  , last_backup_time := none
  , servers := []
  , internet_status := "connected_local"
  , time_since_last_lan_connection := 120000 }

/-- A previous widget state whose last-backup label still shows a stale
date. -/
def stale_rendered : Rendered :=
  { rendered0 with last_backup := "Last backup on 01/01/2020 01:00:00 AM" }

/-- What `update_status` renders for `idle_status` after `stale_rendered`. -/
def stale_after : Rendered :=
  { status_text := "Idle. "
  , eta_text := ""
  , progress_value := 0
  , last_backup := "Last backup on 01/01/2020 01:00:00 AM"
  , servers := []
  , connect_status := "Connected to local UrBackup server.\nLocal server last seen 2 minutes ago." }

/-- A snapshot whose first running process has an action outside the
`statuses` dict. -/
def bad_action_status : Status :=
  { running_processes := [{ action := "R_INCR", eta_ms := some 0, percent_done := 0 }]
  , last_backup_time := none
  , servers := []
  , internet_status := "connected_local"
  , time_since_last_lan_connection := 0 }

/-! ## Inversion of a successful render -/

/-- A successful render factors through `current_info` and `lookup_status`,
and every widget field is determined by the snapshot (and, for the
last-backup label, the previous widget state). -/
lemma update_status_ok_fields (fmt_time : Int → String) (prev : Rendered) (st : Status)
    (r : Rendered) (h : update_status fmt_time prev (some st) = Except.ok r) :
    ∃ curr eta percent progress name,
      current_info st.running_processes = Except.ok (curr, eta, percent, progress) ∧
      lookup_status curr = Except.ok name ∧
      r = { status_text := status_format name progress
          , eta_text := eta_text_of eta
          , progress_value := percent
          , last_backup := last_backup_text fmt_time prev.last_backup st.last_backup_time
          , servers := server_lines st.servers
          , connect_status := connect_text st.internet_status st.time_since_last_lan_connection } := by
  unfold update_status at h
  dsimp only at h
  cases hci : current_info st.running_processes with
  | error e => rw [hci] at h; exact absurd h (by simp)
  | ok info =>
      obtain ⟨curr, eta, percent, progress⟩ := info
      rw [hci] at h
      dsimp only at h
      cases hls : lookup_status curr with
      | error e => rw [hls] at h; exact absurd h (by simp)
      | ok name =>
          rw [hls] at h
          dsimp only at h
          simp only [Except.ok.injEq] at h
          exact ⟨curr, eta, percent, progress, name, rfl, hls, h.symm⟩

/-- Successful dict indexing into `statuses` means the key is in the dict. -/
lemma lookup_status_ok (key name : String) (h : lookup_status key = Except.ok name) :
    statuses.lookup key = some name := by
  unfold lookup_status at h
  cases hk : statuses.lookup key <;> rw [hk] at h
  · exact absurd h (by simp)
  · simp only [Except.ok.injEq] at h
    rw [h]

/-- Rendering a snapshot with no running process always yields the idle
widget state. -/
lemma update_status_ok_nil (fmt_time : Int → String) (prev : Rendered) (st : Status)
    (r : Rendered) (hrp : st.running_processes = [])
    (h : update_status fmt_time prev (some st) = Except.ok r) :
    r = { status_text := status_format "Idle." ""
        , eta_text := ""
        , progress_value := 0
        , last_backup := last_backup_text fmt_time prev.last_backup st.last_backup_time
        , servers := server_lines st.servers
        , connect_status := connect_text st.internet_status st.time_since_last_lan_connection } := by
  obtain ⟨curr, eta, percent, progress, name, hci, hls, hr⟩ :=
    update_status_ok_fields fmt_time prev st r h
  rw [hrp] at hci
  simp only [current_info, Except.ok.injEq, Prod.mk.injEq] at hci
  obtain ⟨hc, he, hp, hg⟩ := hci
  subst hc; subst he; subst hp; subst hg
  have : name = "Idle." := by
    have := lookup_status_ok _ _ hls
    simpa [statuses, List.lookup] using this.symm
  subst this
  simpa [eta_text_of] using hr

/-- Rendering a snapshot whose first running process is `p` succeeds only
when `p.eta_ms` is present and `p.action` is a key of `statuses`, and then
every widget field is as computed by the embedded helpers. -/
lemma update_status_ok_cons (fmt_time : Int → String) (prev : Rendered) (st : Status)
    (r : Rendered) (p : RunningProcess) (ps : List RunningProcess)
    (hrp : st.running_processes = p :: ps)
    (h : update_status fmt_time prev (some st) = Except.ok r) :
    ∃ e name,
      p.eta_ms = some e ∧
      statuses.lookup p.action = some name ∧
      r.eta_text = eta_text_of (some e) ∧
      r.progress_value = (if p.percent_done = -1 then 0 else p.percent_done) ∧
      r.status_text = status_format name
        (if p.percent_done = -1 then "Indexing." else toString p.percent_done ++ "% done.") ∧
      r.last_backup = last_backup_text fmt_time prev.last_backup st.last_backup_time ∧
      r.servers = server_lines st.servers ∧
      r.connect_status = connect_text st.internet_status st.time_since_last_lan_connection := by
  obtain ⟨curr, eta, percent, progress, name, hci, hls, hr⟩ :=
    update_status_ok_fields fmt_time prev st r h
  rw [hrp] at hci
  cases he : p.eta_ms with
  | none =>
      rw [show current_info (p :: ps) = Except.error (PyErr.keyError "eta_ms") by
        simp [current_info, he]] at hci
      exact absurd hci (by simp)
  | some e =>
      rw [show current_info (p :: ps) =
          (if p.percent_done = -1 then Except.ok (p.action, some e, 0, "Indexing.")
           else Except.ok (p.action, some e, p.percent_done,
             toString p.percent_done ++ "% done.")) by simp [current_info, he]] at hci
      by_cases hpd : p.percent_done = -1
      · rw [if_pos hpd] at hci
        simp only [Except.ok.injEq, Prod.mk.injEq] at hci
        obtain ⟨hc, hee, hp2, hg⟩ := hci
        subst hc; subst hee; subst hp2; subst hg
        exact ⟨e, name, rfl, lookup_status_ok _ _ hls, by rw [hr],
          by rw [hr]; simp [hpd], by rw [hr]; simp [hpd], by rw [hr], by rw [hr], by rw [hr]⟩
      · rw [if_neg hpd] at hci
        simp only [Except.ok.injEq, Prod.mk.injEq] at hci
        obtain ⟨hc, hee, hp2, hg⟩ := hci
        subst hc; subst hee; subst hp2; subst hg
        exact ⟨e, name, rfl, lookup_status_ok _ _ hls, by rw [hr],
          by rw [hr]; simp [hpd], by rw [hr]; simp [hpd], by rw [hr], by rw [hr], by rw [hr]⟩

/-! ## The claims -/

/-- C1: the icon is chosen by the three-way selection evaluated in order
(`None` → not connected; running process present → busy; `internet_status =
"connected_local"` → connected; otherwise not connected), the same chosen
icon is applied to both the tray icon and the window icon, and the choice is
a pure function of `(has_running_process, internet_status, is_none)`. -/
theorem update_tray_pure_icon_selection (status : Option Status) :
    update_tray status =
      (icon_choice status.isNone (has_running_process status) (internet_status_of status),
       icon_choice status.isNone (has_running_process status) (internet_status_of status)) := by
  cases status with
  | none => rfl
  | some st =>
      simp only [update_tray, icon_choice, has_running_process, internet_status_of,
        Option.isNone]
      by_cases h : st.running_processes.length > 0
      · simp [h]
      · by_cases h2 : st.internet_status = "connected_local" <;> simp [h, h2]

/-- C2 counterexample: on a snapshot whose first running process lacks the
`eta_ms` key, the render raises a `KeyError` instead of producing an empty
ETA line. -/
theorem eta_missing_key_raises :
    update_status (fun _ => "") rendered0 (some eta_missing_status) =
      Except.error (PyErr.keyError "eta_ms") := rfl

/-- C2 (amended): on a successful render, a first running process with
`eta_ms` present and ≠ -1 yields the ETA text
"ETA: `eta_ms // 3600000` hours `eta_ms // 60000` minutes" (minutes from
total milliseconds, not the remainder); `eta_ms = -1`, or an empty
`running_processes` (so no eta is read), yields the empty ETA line.  A
present first process without the `eta_ms` key raises instead
(`eta_missing_key_raises`). -/
theorem eta_line_rendering (fmt_time : Int → String) (prev : Rendered) (st : Status)
    (r : Rendered) (h : update_status fmt_time prev (some st) = Except.ok r) :
    (∀ p ps e, st.running_processes = p :: ps → p.eta_ms = some e → e ≠ -1 →
        r.eta_text = "ETA: " ++ toString (Int.fdiv e 3600000) ++ " hours " ++
          toString (Int.fdiv e 60000) ++ " minutes") ∧
    (∀ p ps, st.running_processes = p :: ps → p.eta_ms = some (-1) → r.eta_text = "") ∧
    (st.running_processes = [] → r.eta_text = "") := by
  refine ⟨?_, ?_, ?_⟩
  · intro p ps e hrp he hne
    obtain ⟨e2, name, he2, _, heta, _⟩ := update_status_ok_cons fmt_time prev st r p ps hrp h
    obtain rfl : e = e2 := by simpa using he.symm.trans he2
    rw [heta]
    simp [eta_text_of, eta_format, hne, String.append_assoc]
  · intro p ps hrp he
    obtain ⟨e2, name, he2, _, heta, _⟩ := update_status_ok_cons fmt_time prev st r p ps hrp h
    obtain rfl : (-1 : Int) = e2 := by simpa using he.symm.trans he2
    rw [heta]
    simp [eta_text_of]
  · intro hrp
    rw [update_status_ok_nil fmt_time prev st r hrp h]

/-- C2 witness: `eta_ms = 7,260,000` renders "ETA: 2 hours 121 minutes". -/
theorem eta_line_rendering_witness :
    eta_example_rendered.eta_text = "ETA: 2 hours 121 minutes" :=
  (eta_line_rendering (fun _ => "") rendered0 eta_example_status eta_example_rendered rfl).1
    { action := "FULL", eta_ms := some 7260000, percent_done := 50 } [] 7260000 rfl rfl
    (by decide)

/-- C3: the poller returns `None` exactly when the subprocess exits nonzero;
on a zero exit it returns the parsed stdout, and a JSON parse error on a
zero exit propagates out instead of becoming `None`. -/
theorem get_status_none_iff_nonzero_exit (run : List String → ProcResult)
    (parse : String → Except PyErr Status) :
    ((run get_status_argv).returncode ≠ 0 → get_status run parse = Except.ok none) ∧
    (get_status run parse = Except.ok none → (run get_status_argv).returncode ≠ 0) ∧
    (∀ st, (run get_status_argv).returncode = 0 →
        parse (run get_status_argv).stdout = Except.ok st →
        get_status run parse = Except.ok (some st)) ∧
    (∀ e, (run get_status_argv).returncode = 0 →
        parse (run get_status_argv).stdout = Except.error e →
        get_status run parse = Except.error e) := by
  unfold get_status get_status_from
  refine ⟨fun h => by simp [h], fun h hz => ?_,
    fun st h0 hp => by simp [h0, hp, Except.map],
    fun e h0 hp => by simp [h0, hp, Except.map]⟩
  rw [if_neg (not_not_intro hz)] at h
  cases hp : parse (run get_status_argv).stdout <;> rw [hp] at h <;>
    simp [Except.map] at h

/-- C3 witness: a nonzero exit yields `None` even when the parser would
fail. -/
theorem get_status_none_iff_nonzero_exit_witness :
    get_status (fun _ => { returncode := 1, stdout := "" })
      (fun _ => Except.error (PyErr.jsonDecodeError "bad")) = Except.ok none :=
  (get_status_none_iff_nonzero_exit _ _).1 (by decide)

/-- C4: a `None` status makes the window presenter render exactly the
documented unknown state ("Could not get status!", empty ETA, progress 0,
empty server list, "Unknown" connection text) without raising, and makes
the icon presenter set the "not connected" icon on both the tray and the
window. -/
theorem none_renders_unknown_state (fmt_time : Int → String) (prev : Rendered) :
    update_status fmt_time prev none = Except.ok unknown_rendered ∧
    unknown_rendered.status_text = "Could not get status!" ∧
    unknown_rendered.eta_text = "" ∧
    unknown_rendered.progress_value = 0 ∧
    unknown_rendered.servers = [] ∧
    unknown_rendered.connect_status = "Unknown" ∧
    update_tray none = (Icon.not_connected, Icon.not_connected) :=
  ⟨rfl, rfl, rfl, rfl, rfl, rfl, rfl⟩

/-- C5: on a successful render, `percent_done = -1` yields progress bar 0
and progress text "Indexing."; `percent_done ∈ [0,100]` yields bar value
`percent_done` and text "`percent_done`% done."; an empty
`running_processes` yields bar 0 and empty progress text. -/
theorem progress_rendering (fmt_time : Int → String) (prev : Rendered) (st : Status)
    (r : Rendered) (h : update_status fmt_time prev (some st) = Except.ok r) :
    (∀ p ps, st.running_processes = p :: ps → p.percent_done = -1 →
        r.progress_value = 0 ∧
        ∃ name, statuses.lookup p.action = some name ∧
          r.status_text = name ++ " " ++ "Indexing.") ∧
    (∀ p ps, st.running_processes = p :: ps → 0 ≤ p.percent_done → p.percent_done ≤ 100 →
        r.progress_value = p.percent_done ∧
        ∃ name, statuses.lookup p.action = some name ∧
          r.status_text = name ++ " " ++ (toString p.percent_done ++ "% done.")) ∧
    (st.running_processes = [] → r.progress_value = 0 ∧ r.status_text = "Idle." ++ " " ++ "") := by
  refine ⟨?_, ?_, ?_⟩
  · intro p ps hrp hpd
    obtain ⟨e, name, _, hname, _, hpv, hst, _⟩ :=
      update_status_ok_cons fmt_time prev st r p ps hrp h
    refine ⟨by rw [hpv]; simp [hpd], name, hname, ?_⟩
    rw [hst]
    simp [status_format, hpd]
  · intro p ps hrp h0 h100
    have hpd : p.percent_done ≠ -1 := by omega
    obtain ⟨e, name, _, hname, _, hpv, hst, _⟩ :=
      update_status_ok_cons fmt_time prev st r p ps hrp h
    refine ⟨by rw [hpv]; simp [hpd], name, hname, ?_⟩
    rw [hst]
    simp [status_format, hpd]
  · intro hrp
    rw [update_status_ok_nil fmt_time prev st r hrp h]
    exact ⟨rfl, rfl⟩

/-- C5 witness: `percent_done = 50` renders progress bar value 50. -/
theorem progress_rendering_witness :
    eta_example_rendered.progress_value = 50 :=
  ((progress_rendering (fun _ => "") rendered0 eta_example_status
      eta_example_rendered rfl).2.1
      { action := "FULL", eta_ms := some 7260000, percent_done := 50 } [] rfl
      (by decide) (by decide)).1

/-- C6: on a successful render, the connection text is "Waiting for local
UrBackup server." for `wait_local`, "No servers" for `no_server`, and
otherwise the two lines "`[Not ]c`onnected to local UrBackup server."
(connected iff `internet_status = "connected_local"`) and "Local server
last seen `time_since_last_lan_connection // 60000` minutes ago.". -/
theorem connection_text_rendering (fmt_time : Int → String) (prev : Rendered) (st : Status)
    (r : Rendered) (h : update_status fmt_time prev (some st) = Except.ok r) :
    (st.internet_status = "wait_local" →
        r.connect_status = "Waiting for local UrBackup server.") ∧
    (st.internet_status = "no_server" → r.connect_status = "No servers") ∧
    (st.internet_status ≠ "wait_local" → st.internet_status ≠ "no_server" →
        r.connect_status =
          (if st.internet_status = "connected_local"
              then "Connected to local UrBackup server."
              else "Not connected to local UrBackup server.") ++ "\n" ++
            ("Local server last seen " ++
              toString (Int.fdiv st.time_since_last_lan_connection 60000) ++
              " minutes ago.")) := by
  obtain ⟨curr, eta, percent, progress, name, hci, hls, hr⟩ :=
    update_status_ok_fields fmt_time prev st r h
  subst hr
  refine ⟨fun hw => by simp [connect_text, hw], fun hn => by simp [connect_text, hn], ?_⟩
  intro hne1 hne2
  show connect_text st.internet_status st.time_since_last_lan_connection = _
  unfold connect_text
  rw [if_neg hne1, if_neg hne2]
  by_cases hc : st.internet_status = "connected_local"
  · rw [if_pos hc, if_pos hc]
    rfl
  · rw [if_neg hc, if_neg hc]
    rfl

/-- C6 witness: `connected_local` with 120,000 ms since the last LAN
connection renders the two connected lines. -/
theorem connection_text_rendering_witness :
    eta_example_rendered.connect_status =
      "Connected to local UrBackup server.\nLocal server last seen 2 minutes ago." := by
  have h := (connection_text_rendering (fun _ => "") rendered0 eta_example_status
      eta_example_rendered rfl).2.2 (by decide) (by decide)
  rw [h]
  rfl

/-- C7: on a successful render, an empty `running_processes` yields the
status text "Idle. " (idle label, a space, empty progress part), and a
non-empty one selects the status-text prefix from the fixed three-entry
lookup on the first process's action (`FULL` → "Full file backup running.",
`INCR` → "Incremental file backup running.", `IDLE` → "Idle."). -/
theorem status_text_action_lookup (fmt_time : Int → String) (prev : Rendered) (st : Status)
    (r : Rendered) (h : update_status fmt_time prev (some st) = Except.ok r) :
    (st.running_processes = [] → r.status_text = "Idle. ") ∧
    (∀ p ps, st.running_processes = p :: ps →
        (p.action = "FULL" →
          ∃ prog, r.status_text = "Full file backup running." ++ " " ++ prog) ∧
        (p.action = "INCR" →
          ∃ prog, r.status_text = "Incremental file backup running." ++ " " ++ prog) ∧
        (p.action = "IDLE" → ∃ prog, r.status_text = "Idle." ++ " " ++ prog)) := by
  refine ⟨?_, ?_⟩
  · intro hrp
    rw [update_status_ok_nil fmt_time prev st r hrp h]
    rfl
  · intro p ps hrp
    obtain ⟨e, name, _, hname, _, _, hst, _⟩ :=
      update_status_ok_cons fmt_time prev st r p ps hrp h
    refine ⟨fun ha => ?_, fun ha => ?_, fun ha => ?_⟩
    · rw [ha] at hname
      have hn : name = "Full file backup running." := by
        simpa [statuses, List.lookup] using hname.symm
      exact ⟨if p.percent_done = -1 then "Indexing."
          else toString p.percent_done ++ "% done.", by rw [hst, hn]; rfl⟩
    · rw [ha] at hname
      have hn : name = "Incremental file backup running." := by
        simpa [statuses, List.lookup] using hname.symm
      exact ⟨if p.percent_done = -1 then "Indexing."
          else toString p.percent_done ++ "% done.", by rw [hst, hn]; rfl⟩
    · rw [ha] at hname
      have hn : name = "Idle." := by
        simpa [statuses, List.lookup] using hname.symm
      exact ⟨if p.percent_done = -1 then "Indexing."
          else toString p.percent_done ++ "% done.", by rw [hst, hn]; rfl⟩

/-- C7 witness: an idle snapshot renders the status text "Idle. ". -/
theorem status_text_action_lookup_witness :
    stale_after.status_text = "Idle. " :=
  (status_text_action_lookup (fun _ => "") stale_rendered idle_status stale_after rfl).1 rfl

/-- C8 counterexample: rendering a snapshot without the `last_backup_time`
key leaves the last-backup label unchanged, so a stale non-empty text
survives the render instead of being emptied. -/
theorem missing_last_backup_keeps_previous_text :
    update_status (fun _ => "") stale_rendered (some idle_status) = Except.ok stale_after ∧
    stale_after.last_backup = "Last backup on 01/01/2020 01:00:00 AM" ∧
    ¬ stale_after.last_backup = "" := ⟨rfl, rfl, by decide⟩

/-- C8 (amended): on a successful render, a present `last_backup_time`
yields the label "Last backup on `D`" with `D` the formatted local
date/time; an absent key leaves the label at its previous text (it is not
cleared). -/
theorem last_backup_label (fmt_time : Int → String) (prev : Rendered) (st : Status)
    (r : Rendered) (h : update_status fmt_time prev (some st) = Except.ok r) :
    (∀ t, st.last_backup_time = some t →
        r.last_backup = "Last backup on " ++ fmt_time t) ∧
    (st.last_backup_time = none → r.last_backup = prev.last_backup) := by
  obtain ⟨curr, eta, percent, progress, name, hci, hls, hr⟩ :=
    update_status_ok_fields fmt_time prev st r h
  subst hr
  constructor
  · intro t ht
    simp [last_backup_text, ht, last_backup_format]
  · intro ht
    simp [last_backup_text, ht]

/-- C8 witness: rendering `idle_status` (no `last_backup_time`) keeps the
previous last-backup label. -/
theorem last_backup_label_witness :
    stale_after.last_backup = stale_rendered.last_backup :=
  (last_backup_label (fun _ => "") stale_rendered idle_status stale_after rfl).2 rfl

/-- C9 counterexample: the one subprocess invocation uses the constant
argument vector `["urbackupclientctl", "status"]`, which on the Windows
platform differs from the `UrBackupClient_cmd` name the claim requires
(only the never-invoking secondary entry point selects that name). -/
theorem invocation_not_platform_dependent :
    get_status_argv = ["urbackupclientctl", "status"] ∧
    gui_entry_cmd "win32" = "UrBackupClient_cmd" ∧
    get_status_argv ≠ [gui_entry_cmd "win32", "status"] :=
  ⟨rfl, by decide, by decide⟩

/-- C9 (amended): the only subprocess invocation, `App.get_status`, always
runs `urbackupclientctl` with the single argument `status`, independent of
the platform; the secondary entry point computes — but never invokes — a
platform-dependent tool name, `UrBackupClient_cmd` exactly when the
platform string starts with "win32" and `urbackupclientctl` otherwise. -/
theorem invocation_argv_fixed (platform : String) (run : List String → ProcResult)
    (parse : String → Except PyErr Status) :
    get_status run parse = get_status_from (run ["urbackupclientctl", "status"]) parse ∧
    get_status_argv = ["urbackupclientctl", "status"] ∧
    (startswith platform "win32" = true →
        gui_entry_cmd platform = "UrBackupClient_cmd") ∧
    (startswith platform "win32" = false →
        gui_entry_cmd platform = "urbackupclientctl") := by
  refine ⟨rfl, rfl, fun hw => ?_, fun hw => ?_⟩
  · simp [gui_entry_cmd, hw]
  · simp [gui_entry_cmd, hw]

/-- C9 witness: on a non-Windows platform the secondary entry point also
selects `urbackupclientctl`. -/
theorem invocation_argv_fixed_witness :
    gui_entry_cmd "linux" = "urbackupclientctl" :=
  (invocation_argv_fixed "linux" (fun _ => { returncode := 1, stdout := "" })
    (fun _ => Except.error (PyErr.jsonDecodeError ""))).2.2.2 (by decide)

/-- C10: when the first running process's action lies outside
`{FULL, INCR, IDLE}`, the window presenter raises a `KeyError` (the
action-to-text dict is partial, so rendering is total only on snapshots
whose action values stay within the documented three-value set). -/
theorem unknown_action_raises (fmt_time : Int → String) (prev : Rendered)
    (st : Status) (p : RunningProcess) (ps : List RunningProcess)
    (hrp : st.running_processes = p :: ps)
    (h1 : p.action ≠ "FULL") (h2 : p.action ≠ "INCR") (h3 : p.action ≠ "IDLE") :
    is_key_error (update_status fmt_time prev (some st)) = true := by
  have b1 : (p.action == "FULL") = false := beq_eq_false_iff_ne.mpr h1
  have b2 : (p.action == "INCR") = false := beq_eq_false_iff_ne.mpr h2
  have b3 : (p.action == "IDLE") = false := beq_eq_false_iff_ne.mpr h3
  have hl : lookup_status p.action = Except.error (PyErr.keyError p.action) := by
    unfold lookup_status statuses
    simp [List.lookup, b1, b2, b3]
  unfold update_status
  dsimp only
  rw [hrp]
  unfold current_info
  dsimp only
  cases he : p.eta_ms with
  | none => rfl
  | some e =>
      by_cases hp : p.percent_done = -1 <;> simp [hp, hl, is_key_error]

/-- C10 witness: a first process with the action "R_INCR" makes the render
raise a `KeyError`. -/
theorem unknown_action_raises_witness :
    is_key_error (update_status (fun _ => "") rendered0 (some bad_action_status)) = true :=
  unknown_action_raises (fun _ => "") rendered0 bad_action_status
    { action := "R_INCR", eta_ms := some 0, percent_done := 0 } [] rfl
    (by decide) (by decide) (by decide)
